import Mathlib

/-!
Verification of `src/evaluation/plotting_common.py`.

The module configures global plotting style, defines fixed category
color/marker palettes, and provides a human-readable byte-count axis
formatter.  We embed it shallowly:

* Numeric values are modelled as rationals.  In the source, the inputs to
  `bytes_to_human_readable` are Python numbers (ints or binary floats,
  which are dyadic rationals); division by `1024` and `1024 ** 2` is exact
  in binary floating point for the magnitudes of interest, and Python's
  `"{:.0f}".format` rounds the exact value of its argument to the nearest
  integer with ties to even.  So formatting over exact rationals with
  round-half-to-even is a faithful model of the float pipeline.
* Python dict literals become association lists; dict lookup becomes
  `List.lookup`, where `none` models a `KeyError`.
* Mutation of the matplotlib axis object / global `rcParams` becomes
  explicit state passing: each procedure takes the state and returns the
  updated state.
-/

/-- Round-half-to-even ("banker's rounding") on rationals: the rounding
performed by Python's `"{:.0f}".format` on the exact value of its
argument. -/
def rnd (q : ℚ) : ℤ :=
  if q - ⌊q⌋ < 1 / 2 then ⌊q⌋
  else if 1 / 2 < q - ⌊q⌋ then ⌊q⌋ + 1
  else if ⌊q⌋ % 2 = 0 then ⌊q⌋ else ⌊q⌋ + 1

/-- Python's `"{:.0f}".format(q)`: the argument rounded half-to-even to an
integer and printed in decimal.  A negative argument that rounds to zero
prints as `"-0"` (Python keeps the sign of the value). -/
def fmt0f (q : ℚ) : String :=
  if rnd q = 0 ∧ q < 0 then "-0" else toString (rnd q)

/-- `bytes_to_human_readable(x, pos)` from `plotting_common.py`:
three-way threshold on `x` with suffixes `B` / `KiB` / `MiB`; the second
argument is the tick position required by matplotlib's `FuncFormatter`
callback interface and is not used. -/
def bytes_to_human_readable (x _pos : ℚ) : String :=
  if x < 1024 then fmt0f x ++ "B"
  else if x < 1024 ^ 2 then fmt0f (x / 1024) ++ "KiB"
  else fmt0f (x / 1024 ^ 2) ++ "MiB"

/-- A matplotlib tick formatter: either `plt.FuncFormatter(f)` wrapping a
callback, or `plt.NullFormatter()`. -/
inductive Formatter where
  | funcFormatter (f : ℚ → ℚ → String)
  | nullFormatter

/-- The text a formatter produces for a tick at value `x`, position `p`:
a `NullFormatter` always produces the empty string. -/
def Formatter.render : Formatter → ℚ → ℚ → String
  | Formatter.funcFormatter f, x, p => f x p
  | Formatter.nullFormatter, _, _ => ""

/-- The part of a matplotlib axis object the module touches: its major and
minor tick formatters (set via `set_major_formatter` /
`set_minor_formatter`). -/
structure Axis where
  major : Formatter
  minor : Formatter

/-- `setup_bytes_formatters(axis, minor=False)` from `plotting_common.py`,
with the axis mutation made explicit: returns the updated axis. -/
def setup_bytes_formatters (axis : Axis) (minor : Bool) : Axis :=
  let axis := { axis with major := Formatter.funcFormatter bytes_to_human_readable }
  if minor then
    { axis with minor := Formatter.funcFormatter bytes_to_human_readable }
  else
    { axis with minor := Formatter.nullFormatter }

/-- Modelled from the spec: a color produced by seaborn's palette
generator.  The RGB values are computed by the external seaborn library
(not part of this repository); the spec describes the palette as a
"6-color evenly-spaced hue palette", so a color is represented by its hue
(in degrees). -/
structure Color where
  hue : ℚ
  deriving DecidableEq

/-- Modelled from the spec: `sns.color_palette("husl", n)` — `n` colors
with evenly spaced hues, generated by the external seaborn library. -/
def color_palette (n : ℕ) : List Color :=
  (List.range n).map (fun i => ⟨(i : ℚ) * 360 / n⟩)

/-- `colors = sns.color_palette("husl", 6)`: the 6-color palette generated
once at module load. -/
def colors : List Color := color_palette 6

/-- `category_colors` from `plotting_common.py`, a dict literal modelled
as an association list: `prime ↦ colors[3]`, `round ↦ colors[0]`,
`round_minus_one ↦ colors[2]`. -/
def category_colors : List (String × Color) :=
  [("prime", colors.get ⟨3, by decide⟩),
   ("round", colors.get ⟨0, by decide⟩),
   ("round_minus_one", colors.get ⟨2, by decide⟩)]

/-- `category_markers` from `plotting_common.py`, a dict literal modelled
as an association list. -/
def category_markers : List (String × String) :=
  [("prime", "*"),
   ("round", "x"),
   ("round_minus_one", "o")]

/-- The process-wide matplotlib rendering configuration, restricted to
what `setup_plotting_style` touches plus a `rest` component for every
other rcParam (carried through untouched).  `styleParams` stands for the
values of all parameters controlled by the active style sheet; applying a
style sheet overwrites them with values determined by the sheet's name
alone. -/
structure RcConfig where
  styleParams : String
  figureDpi : ℚ
  textUsetex : Bool
  fontFamily : String
  rest : List (String × String)
  deriving DecidableEq

/-- `matplotlib.style.use(name)`: overwrites the style-sheet-controlled
parameters with the fixed values of the named built-in sheet. -/
def matplotlib_style_use (sheet : String) (c : RcConfig) : RcConfig :=
  { c with styleParams := sheet }

/-- `setup_plotting_style()` from `plotting_common.py`, with the global
mutation made explicit: `style.use("ggplot")`, then
`rcParams['figure.dpi'] = 300`, then
`rcParams.update({"text.usetex": True, "font.family": "serif"})`. -/
def setup_plotting_style (c : RcConfig) : RcConfig :=
  let c1 := matplotlib_style_use "ggplot" c
  let c2 := { c1 with figureDpi := 300 }
  { c2 with textUsetex := true, fontFamily := "serif" }

/-! ## Helper lemmas -/

lemma rnd_nearest (q : ℚ) : |(rnd q : ℚ) - q| ≤ 1 / 2 := by
  have h0 : (⌊q⌋ : ℚ) ≤ q := Int.floor_le q
  have h1 : q < ⌊q⌋ + 1 := Int.lt_floor_add_one q
  unfold rnd
  split
  · rename_i h
    rw [abs_le]
    constructor <;> linarith
  · split
    · rename_i h h'
      push_cast
      rw [abs_le]
      constructor <;> linarith
    · split <;> (rename_i h h' _; push_cast; rw [abs_le]) <;>
        constructor <;> linarith

lemma rnd_half (n : ℤ) : rnd ((n : ℚ) + 1 / 2) = if n % 2 = 0 then n else n + 1 := by
  have h12 : ⌊(1 / 2 : ℚ)⌋ = 0 := by norm_num
  have hf : ⌊(n : ℚ) + 1 / 2⌋ = n := by rw [Int.floor_int_add, h12, add_zero]
  have hr : (n : ℚ) + 1 / 2 - (n : ℤ) = 1 / 2 := by ring
  unfold rnd
  rw [hf, hr, if_neg (lt_irrefl _), if_neg (lt_irrefl _)]

lemma fmt0f_of_nonneg (q : ℚ) (h : 0 ≤ q) : fmt0f q = toString (rnd q) := by
  unfold fmt0f
  rw [if_neg]
  rintro ⟨-, hq⟩
  exact absurd hq (not_lt.mpr h)

lemma btohr_b (x p : ℚ) (h : x < 1024) :
    bytes_to_human_readable x p = fmt0f x ++ "B" := by
  unfold bytes_to_human_readable
  rw [if_pos h]

lemma btohr_kib (x p : ℚ) (h1 : 1024 ≤ x) (h2 : x < 1024 ^ 2) :
    bytes_to_human_readable x p = fmt0f (x / 1024) ++ "KiB" := by
  unfold bytes_to_human_readable
  rw [if_neg (not_lt.mpr h1), if_pos h2]

lemma btohr_mib (x p : ℚ) (h : 1024 ^ 2 ≤ x) :
    bytes_to_human_readable x p = fmt0f (x / 1024 ^ 2) ++ "MiB" := by
  unfold bytes_to_human_readable
  have h1024 : (1024 : ℚ) ≤ 1024 ^ 2 := by norm_num
  rw [if_neg (not_lt.mpr (le_trans h1024 h)), if_neg (not_lt.mpr h)]

/-! ## Claim theorems -/

/-- Claim C1: for every non-negative value, `bytes_to_human_readable`
follows the three-way threshold rule — below `1024` the value itself is
formatted to zero decimals with suffix `B`; in `[1024, 1024^2)` the value
divided by `1024` is rounded to the nearest integer (distance at most
`1/2`) with suffix `KiB`; at and above `1024^2` the value divided by
`1024^2` is rounded to the nearest integer with suffix `MiB` — and in
particular `0 ↦ "0B"`, `1023 ↦ "1023B"`, `1024 ↦ "1KiB"`,
`1024^2 ↦ "1MiB"`, `10*1024^2 ↦ "10MiB"`. -/
theorem claim_C1 (x y z p : ℚ) (hx0 : 0 ≤ x) (hx : x < 1024)
    (hy1 : 1024 ≤ y) (hy2 : y < 1024 ^ 2) (hz : 1024 ^ 2 ≤ z) :
    bytes_to_human_readable x p = toString (rnd x) ++ "B" ∧
    bytes_to_human_readable y p = toString (rnd (y / 1024)) ++ "KiB" ∧
    bytes_to_human_readable z p = toString (rnd (z / 1024 ^ 2)) ++ "MiB" ∧
    |(rnd (y / 1024) : ℚ) - y / 1024| ≤ 1 / 2 ∧
    |(rnd (z / 1024 ^ 2) : ℚ) - z / 1024 ^ 2| ≤ 1 / 2 ∧
    bytes_to_human_readable 0 p = "0B" ∧
    bytes_to_human_readable 1023 p = "1023B" ∧
    bytes_to_human_readable 1024 p = "1KiB" ∧
    bytes_to_human_readable (1024 ^ 2) p = "1MiB" ∧
    bytes_to_human_readable (10 * 1024 ^ 2) p = "10MiB" := by
  refine ⟨?_, ?_, ?_, rnd_nearest _, rnd_nearest _, ?_, ?_, ?_, ?_, ?_⟩
  · rw [btohr_b x p hx, fmt0f_of_nonneg x hx0]
  · rw [btohr_kib y p hy1 hy2,
      fmt0f_of_nonneg _ (div_nonneg (by linarith) (by norm_num))]
  · rw [btohr_mib z p hz,
      fmt0f_of_nonneg _ (div_nonneg (by linarith) (by norm_num))]
  · norm_num [bytes_to_human_readable, fmt0f, rnd]
    decide
  · norm_num [bytes_to_human_readable, fmt0f, rnd]
    decide
  · norm_num [bytes_to_human_readable, fmt0f, rnd]
    decide
  · norm_num [bytes_to_human_readable, fmt0f, rnd]
    decide
  · norm_num [bytes_to_human_readable, fmt0f, rnd]
    decide

/-- Witness for C1 at `x = 512`, `y = 1536`, `z = 5 * 1024^2`, `p = 0`. -/
theorem claim_C1_witness :
    (0 ≤ (512 : ℚ) ∧ (512 : ℚ) < 1024 ∧ (1024 : ℚ) ≤ 1536 ∧
      (1536 : ℚ) < 1024 ^ 2 ∧ (1024 : ℚ) ^ 2 ≤ 5 * 1024 ^ 2) ∧
    (bytes_to_human_readable 512 0 = toString (rnd 512) ++ "B" ∧
    bytes_to_human_readable 1536 0 = toString (rnd (1536 / 1024)) ++ "KiB" ∧
    bytes_to_human_readable (5 * 1024 ^ 2) 0 =
      toString (rnd (5 * 1024 ^ 2 / 1024 ^ 2)) ++ "MiB" ∧
    |(rnd ((1536 : ℚ) / 1024) : ℚ) - 1536 / 1024| ≤ 1 / 2 ∧
    |(rnd ((5 * 1024 ^ 2 : ℚ) / 1024 ^ 2) : ℚ) - 5 * 1024 ^ 2 / 1024 ^ 2| ≤ 1 / 2 ∧
    bytes_to_human_readable 0 0 = "0B" ∧
    bytes_to_human_readable 1023 0 = "1023B" ∧
    bytes_to_human_readable 1024 0 = "1KiB" ∧
    bytes_to_human_readable (1024 ^ 2) 0 = "1MiB" ∧
    bytes_to_human_readable (10 * 1024 ^ 2) 0 = "10MiB") :=
  ⟨⟨by norm_num, by norm_num, by norm_num, by norm_num, by norm_num⟩,
    claim_C1 512 1536 (5 * 1024 ^ 2) 0 (by norm_num) (by norm_num)
      (by norm_num) (by norm_num) (by norm_num)⟩

/-- Claim C2: in the `KiB` and `MiB` branches the displayed number is
`value/1024` (resp. `value/1024^2`) rounded to the nearest integer with
ties broken to even (`rnd` maps `n + 1/2` to the even member of
`{n, n+1}`), not floored or ceiled; in particular `1536 ↦ "2KiB"` (floor
would give `1`) and `2560 ↦ "2KiB"` (ceiling would give `3`). -/
theorem claim_C2 (x y p : ℚ) (n : ℤ) (hx1 : 1024 ≤ x) (hx2 : x < 1024 ^ 2)
    (hy : 1024 ^ 2 ≤ y) :
    bytes_to_human_readable x p = toString (rnd (x / 1024)) ++ "KiB" ∧
    bytes_to_human_readable y p = toString (rnd (y / 1024 ^ 2)) ++ "MiB" ∧
    rnd ((n : ℚ) + 1 / 2) = (if n % 2 = 0 then n else n + 1) ∧
    bytes_to_human_readable 1536 p = "2KiB" ∧
    bytes_to_human_readable 2560 p = "2KiB" := by
  refine ⟨?_, ?_, rnd_half n, ?_, ?_⟩
  · rw [btohr_kib x p hx1 hx2,
      fmt0f_of_nonneg _ (div_nonneg (by linarith) (by norm_num))]
  · rw [btohr_mib y p hy,
      fmt0f_of_nonneg _ (div_nonneg (by linarith) (by norm_num))]
  · norm_num [bytes_to_human_readable, fmt0f, rnd]
    decide
  · norm_num [bytes_to_human_readable, fmt0f, rnd]
    decide

/-- Witness for C2 at `x = 1536`, `y = 1024^2`, `p = 0`, `n = 3`. -/
theorem claim_C2_witness :
    ((1024 : ℚ) ≤ 1536 ∧ (1536 : ℚ) < 1024 ^ 2 ∧
      (1024 : ℚ) ^ 2 ≤ 1024 ^ 2) ∧
    (bytes_to_human_readable 1536 0 = toString (rnd (1536 / 1024)) ++ "KiB" ∧
    bytes_to_human_readable (1024 ^ 2) 0 =
      toString (rnd (1024 ^ 2 / 1024 ^ 2)) ++ "MiB" ∧
    rnd ((3 : ℤ) + 1 / 2 : ℚ) = (if (3 : ℤ) % 2 = 0 then (3 : ℤ) else 3 + 1) ∧
    bytes_to_human_readable 1536 0 = "2KiB" ∧
    bytes_to_human_readable 2560 0 = "2KiB") :=
  ⟨⟨by norm_num, by norm_num, by norm_num⟩,
    claim_C2 1536 (1024 ^ 2) 0 3 (by norm_num) (by norm_num) (by norm_num)⟩

/-- Claim C3: `setup_bytes_formatters` always installs
`bytes_to_human_readable` as the major formatter; with `minor = true` it
also installs it as the minor formatter; with `minor = false` it installs
a null formatter for the minor ticks, which renders every tick as the
empty string. -/
theorem claim_C3 (axis : Axis) (minor : Bool) (x p : ℚ) :
    (setup_bytes_formatters axis minor).major =
      Formatter.funcFormatter bytes_to_human_readable ∧
    (setup_bytes_formatters axis true).minor =
      Formatter.funcFormatter bytes_to_human_readable ∧
    (setup_bytes_formatters axis false).minor = Formatter.nullFormatter ∧
    Formatter.render (setup_bytes_formatters axis false).minor x p = "" := by
  refine ⟨?_, rfl, rfl, rfl⟩
  cases minor <;> rfl

/-- Claim C4: `category_colors` has exactly the keys `prime`, `round`,
`round_minus_one`, mapped respectively to the colors at indices 3, 0 and 2
of the 6-color evenly-spaced hue palette `colors` generated once at module
load (hues `0°, 60°, …, 300°` in the palette model). -/
theorem claim_C4 :
    category_colors.map Prod.fst = ["prime", "round", "round_minus_one"] ∧
    List.lookup "prime" category_colors = colors[3]? ∧
    List.lookup "round" category_colors = colors[0]? ∧
    List.lookup "round_minus_one" category_colors = colors[2]? ∧
    colors = color_palette 6 ∧
    colors.map Color.hue = [0, 60, 120, 180, 240, 300] := by
  refine ⟨rfl, rfl, rfl, rfl, rfl, ?_⟩
  norm_num [colors, color_palette, List.range_succ]

/-- Claim C5: `category_markers` has exactly the keys `prime`, `round`,
`round_minus_one`, mapped to `"*"`, `"x"`, `"o"` respectively, and for all
three defined labels both `category_colors` and `category_markers`
lookups succeed. -/
theorem claim_C5 :
    category_markers.map Prod.fst = ["prime", "round", "round_minus_one"] ∧
    List.lookup "prime" category_markers = some "*" ∧
    List.lookup "round" category_markers = some "x" ∧
    List.lookup "round_minus_one" category_markers = some "o" ∧
    (["prime", "round", "round_minus_one"].all
      (fun l => (List.lookup l category_colors).isSome &&
        (List.lookup l category_markers).isSome)) = true :=
  ⟨rfl, rfl, rfl, rfl, rfl⟩

/-- Claim C6: for every label outside `{prime, round, round_minus_one}`,
lookup in `category_colors` and in `category_markers` fails (returns
`none`, the model of a Python `KeyError`). -/
theorem claim_C6 (l : String) (h1 : l ≠ "prime") (h2 : l ≠ "round")
    (h3 : l ≠ "round_minus_one") :
    List.lookup l category_colors = none ∧
    List.lookup l category_markers = none := by
  have hb1 : (l == "prime") = false := beq_eq_false_iff_ne.mpr h1
  have hb2 : (l == "round") = false := beq_eq_false_iff_ne.mpr h2
  have hb3 : (l == "round_minus_one") = false := beq_eq_false_iff_ne.mpr h3
  constructor <;>
    simp [category_colors, category_markers, List.lookup, hb1, hb2, hb3]

/-- Witness for C6 at the unknown label `"other"`. -/
theorem claim_C6_witness :
    ("other" ≠ "prime" ∧ "other" ≠ "round" ∧ "other" ≠ "round_minus_one") ∧
    (List.lookup "other" category_colors = none ∧
      List.lookup "other" category_markers = none) :=
  ⟨⟨by decide, by decide, by decide⟩,
    claim_C6 "other" (by decide) (by decide) (by decide)⟩

/-- Claim C7: `setup_plotting_style` is idempotent on the process-wide
rendering configuration — from any starting configuration, applying it
twice yields the same configuration as applying it once. -/
theorem claim_C7 (c : RcConfig) :
    setup_plotting_style (setup_plotting_style c) = setup_plotting_style c :=
  rfl

/-- Claim C8: `setup_plotting_style` selects the built-in `ggplot` theme,
sets the figure DPI to 300, enables TeX text rendering, selects a serif
font family, and changes nothing else in the configuration. -/
theorem claim_C8 (c : RcConfig) :
    (setup_plotting_style c).styleParams = "ggplot" ∧
    (setup_plotting_style c).figureDpi = 300 ∧
    (setup_plotting_style c).textUsetex = true ∧
    (setup_plotting_style c).fontFamily = "serif" ∧
    (setup_plotting_style c).rest = c.rest :=
  ⟨rfl, rfl, rfl, rfl, rfl⟩

/-- Claim C9: the result of `bytes_to_human_readable` does not depend on
its second (`position`) argument. -/
theorem claim_C9 (x p1 p2 : ℚ) :
    bytes_to_human_readable x p1 = bytes_to_human_readable x p2 :=
  rfl

/-- Claim C10: `bytes_to_human_readable` is total on all (rational)
numeric inputs; every negative value falls into the first branch and is
formatted to zero decimal places with suffix `B`, e.g. `-5 ↦ "-5B"`. -/
theorem claim_C10 (x p : ℚ) (hx : x < 0) :
    bytes_to_human_readable x p = fmt0f x ++ "B" ∧
    bytes_to_human_readable (-5) p = "-5B" := by
  constructor
  · exact btohr_b x p (lt_trans hx (by norm_num))
  · rw [btohr_b _ _ (by norm_num)]
    norm_num [fmt0f, rnd]
    decide

/-- Witness for C10 at `x = -5`, `p = 0`. -/
theorem claim_C10_witness :
    (-5 : ℚ) < 0 ∧
    (bytes_to_human_readable (-5) 0 = fmt0f (-5) ++ "B" ∧
      bytes_to_human_readable (-5) 0 = "-5B") :=
  ⟨by norm_num, claim_C10 (-5) 0 (by norm_num)⟩
